import Mathlib

/-!
# Framebuffer: the `linux/fb.h` translation in `fb_h.go`

A shallow embedding of the parts of `fb_h.go` that carry behaviour:

* the record declarations, as data (namespace `Decl`), together with the size
  and alignment rules the Go compiler applies to them on linux/amd64 (what
  `unsafe.Sizeof` returns);
* the package-level ioctl constants and the three request codes computed by
  `init`;
* the exported video-mode constants;
* the values of `fb_var_screeninfo`, one component per slot of the record,
  and `fb_var_screeninfo.Copy` as a sequence of assignments on an explicit
  heap.
-/

namespace Framebuffer

/-! ## Go types and their layout on linux/amd64 -/

mutual
/-- The Go types that occur in the record declarations of `fb_h.go`.
`pointer` is `unsafe.Pointer`; `byte` is `uint8`. -/
inductive GoType where
  | uint8 : GoType
  | uint16 : GoType
  | uint32 : GoType
  | uint64 : GoType
  | pointer : GoType
  | array (len : Nat) (elem : GoType) : GoType
  | struct (fields : FieldList) : GoType
/-- The fields of a struct type in declaration order. A blank field is
named `_`; a declaration `x, y uint16` is two fields. -/
inductive FieldList where
  | nil : FieldList
  | cons (name : String) (typ : GoType) (rest : FieldList) : FieldList
end

/-- Build the field list of a struct declaration. -/
def fieldsOf : List (String × GoType) → FieldList
  | [] => FieldList.nil
  | (name, typ) :: rest => FieldList.cons name typ (fieldsOf rest)

/-- Round offset `o` up to the next multiple of `a`. -/
def roundUp (o a : Nat) : Nat := (o + a - 1) / a * a

mutual
/-- Alignment of a type (`unsafe.Alignof`) on linux/amd64: a scalar is
aligned to its size, pointers are 8-byte aligned, an array takes the
alignment of its element, a struct the largest alignment of its fields. -/
def alignof : GoType → Nat
  | GoType.uint8 => 1
  | GoType.uint16 => 2
  | GoType.uint32 => 4
  | GoType.uint64 => 8
  | GoType.pointer => 8
  | GoType.array _ elem => alignof elem
  | GoType.struct fields => maxAlign fields
/-- Largest alignment among the fields of a struct (1 for no field). -/
def maxAlign : FieldList → Nat
  | FieldList.nil => 1
  | FieldList.cons _ typ rest => max (alignof typ) (maxAlign rest)
end

mutual
/-- Size of a type (`unsafe.Sizeof`) on linux/amd64. Struct fields are placed
in declaration order, each at the next offset that is a multiple of its
alignment, and the struct's size is rounded up to its own alignment. -/
def sizeof : GoType → Nat
  | GoType.uint8 => 1
  | GoType.uint16 => 2
  | GoType.uint32 => 4
  | GoType.uint64 => 8
  | GoType.pointer => 8
  | GoType.array len elem => len * sizeof elem
  | GoType.struct fields => roundUp (endOffset fields 0) (maxAlign fields)
/-- Offset just past the last field, when the first field of the list is
to be placed at or after offset `o`. -/
def endOffset : FieldList → Nat → Nat
  | FieldList.nil, o => o
  | FieldList.cons _ typ rest, o => endOffset rest (roundUp o (alignof typ) + sizeof typ)
end

/-- Name, offset and size of every field, in declaration order, when the
first field of the list is to be placed at or after offset `o`. -/
def placeFields : FieldList → Nat → List (String × Nat × Nat)
  | FieldList.nil, _ => []
  | FieldList.cons name typ rest, o =>
    (name, roundUp o (alignof typ), sizeof typ) ::
      placeFields rest (roundUp o (alignof typ) + sizeof typ)

/-- Name, offset and size of every field of a struct type (`unsafe.Offsetof`
for each field); empty for a type that is not a struct. -/
def layout : GoType → List (String × Nat × Nat)
  | GoType.struct fields => placeFields fields 0
  | _ => []

/-- Number of padding bytes in a placement: the bytes of `[o, total)` that
no field covers, the fields being placed in increasing offset order. -/
def paddingBytes : List (String × Nat × Nat) → Nat → Nat → Nat
  | [], o, total => total - o
  | (_, off, size) :: rest, o, total => (off - o) + paddingBytes rest (off + size) total

/-- Padding bytes of a struct type, tail padding included. -/
def padding (t : GoType) : Nat := paddingBytes (layout t) 0 (sizeof t)

/-- The fields of a placement that do not start where the previous one ends
(the first: at `o`), each with the number of padding bytes before it. -/
def gapsFrom : List (String × Nat × Nat) → Nat → List (String × Nat)
  | [], _ => []
  | (name, off, size) :: rest, o =>
    if off = o then gapsFrom rest (off + size) else (name, off - o) :: gapsFrom rest (off + size)

/-- The fields of a struct type that are preceded by padding, with the number
of padding bytes. -/
def gaps (t : GoType) : List (String × Nat) := gapsFrom (layout t) 0

/-- Offset just past the last field of a placement that starts at `o`. -/
def fieldsEnd : List (String × Nat × Nat) → Nat → Nat
  | [], o => o
  | (_, off, size) :: rest, _ => fieldsEnd rest (off + size)

/-- Padding bytes between the end of the last field and the end of the
struct. -/
def tailPadding (t : GoType) : Nat := sizeof t - fieldsEnd (layout t) 0

/-! ## The record declarations of `fb_h.go` -/

namespace Decl

open GoType

def fb_fix_screeninfo : GoType := struct (fieldsOf [
  ("id", array 16 uint8),
  ("smemstart", uint64),
  ("smemlen", uint32),
  ("typ", uint32),
  ("type_aux", uint32),
  ("visual", uint32),
  ("xpanstep", uint16),
  ("ypanstep", uint16),
  ("ywrapstep", uint16),
  ("line_length", uint32),
  ("mmio_start", uint64),
  ("mmio_len", uint32),
  ("accel", uint32),
  ("capabilities", uint16),
  ("_", array 2 uint16)])

def fb_bitfield : GoType := struct (fieldsOf [
  ("offset", uint32),
  ("length", uint32),
  ("msb_right", uint32)])

def fb_var_screeninfo : GoType := struct (fieldsOf [
  ("xres", uint32),
  ("yres", uint32),
  ("xres_virtual", uint32),
  ("yres_virtual", uint32),
  ("xoffset", uint32),
  ("yoffset", uint32),
  ("bits_per_pixel", uint32),
  ("grayscale", uint32),
  ("red", fb_bitfield),
  ("green", fb_bitfield),
  ("blue", fb_bitfield),
  ("transparent", fb_bitfield),
  ("nonstd", uint32),
  ("activate", uint32),
  ("height", uint32),
  ("width", uint32),
  ("_", uint32),
  ("pixclock", uint32),
  ("left_margin", uint32),
  ("right_margin", uint32),
  ("upper_margin", uint32),
  ("lower_margin", uint32),
  ("hsync_len", uint32),
  ("vsync_len", uint32),
  ("sync", uint32),
  ("vmode", uint32),
  ("rotate", uint32),
  ("colorspace", uint32),
  ("_", array 4 uint32)])

def fb_cmap : GoType := struct (fieldsOf [
  ("start", uint32),
  ("len", uint32),
  ("red", pointer),
  ("green", pointer),
  ("blue", pointer),
  ("transp", pointer)])

def fb_con2fbmap : GoType := struct (fieldsOf [
  ("console", uint32),
  ("framebuffer", uint32)])

def fb_vblank : GoType := struct (fieldsOf [
  ("flags", uint32),
  ("count", uint32),
  ("vcount", uint32),
  ("hcount", uint32),
  ("_", array 4 uint32)])

def fb_copyarea : GoType := struct (fieldsOf [
  ("dx", uint32),
  ("dy", uint32),
  ("width", uint32),
  ("height", uint32),
  ("sx", uint32),
  ("sy", uint32)])

def fb_image : GoType := struct (fieldsOf [
  ("dx", uint32),
  ("dy", uint32),
  ("width", uint32),
  ("height", uint32),
  ("fg_color", uint32),
  ("bg_color", uint32),
  ("depth", uint8),
  ("data", pointer),
  ("cmap", fb_cmap)])

def fbcurpos : GoType := struct (fieldsOf [
  ("x", uint16),
  ("y", uint16)])

def fb_cursor : GoType := struct (fieldsOf [
  ("set", uint16),
  ("enable", uint16),
  ("rop", uint16),
  ("mask", pointer),
  ("hot", fbcurpos),
  ("image", fb_image)])

end Decl

/-! ## Exported video-mode constants -/

def VModeNonInterlaced : Nat := 0
def VModeInterlaced : Nat := 1
def VModeDouble : Nat := 2
def VModeOddFieldFirst : Nat := 4
def VModeMask : Nat := 255
def VModeYWrap : Nat := 256
def VModeSmoothXPan : Nat := 512
def VModeCanUpdate : Nat := 512

/-! ## ioctl request codes -/

def _IOGET_VSCREENINFO : Nat := 0x4600
def _IOPUT_VSCREENINFO : Nat := 0x4601
def _IOGET_FSCREENINFO : Nat := 0x4602
def _IOGET_CMAP : Nat := 0x4604
def _IOPUT_CMAP : Nat := 0x4605
def _IOPAN_DISPLAY : Nat := 0x4606
def _IOGET_CON2FBMAP : Nat := 0x460F
def _IOPUT_CON2FBMAP : Nat := 0x4610
def _IO_BLANK : Nat := 0x4611
def _IO_ALLOC : Nat := 0x4613
def _IO_FREE : Nat := 0x4614
def _IOGET_GLYPH : Nat := 0x4615
def _IOGET_HWCINFO : Nat := 0x4616
def _IOPUT_MODEINFO : Nat := 0x4617
def _IOGET_DISPINFO : Nat := 0x4618

/-- The fifteen request codes of the `_IOCTL values` constant block, in
declaration order. -/
def fixedCodes : List Nat :=
  [_IOGET_VSCREENINFO, _IOPUT_VSCREENINFO, _IOGET_FSCREENINFO, _IOGET_CMAP, _IOPUT_CMAP,
   _IOPAN_DISPLAY, _IOGET_CON2FBMAP, _IOPUT_CON2FBMAP, _IO_BLANK, _IO_ALLOC, _IO_FREE,
   _IOGET_GLYPH, _IOGET_HWCINFO, _IOPUT_MODEINFO, _IOGET_DISPINFO]

/-- Modelled from the spec: the direction value "write" of the standard Unix
ioctl encoding, declared in a file of the package other than `fb_h.go`. -/
def _IOC_WRITE : Nat := 1

/-- Modelled from the spec: the direction value "read" of the standard Unix
ioctl encoding, declared in a file of the package other than `fb_h.go`. -/
def _IOC_READ : Nat := 2

/-- Modelled from the spec: the helper `_IOC` is called (through `_IOR`, `_IOW`
and `_IOWR`) by `init` but declared in a file of the package other than
`fb_h.go`. It is the standard Unix ioctl bit-packing: command number in bits
0-7, type in bits 8-15, argument size in bits 16-29, direction in bits 30-31.
The result is the 64-bit word held by a Go `int` on linux/amd64. -/
def _IOC (dir t nr size : Nat) : Nat :=
  ((dir <<< 30) ||| (t <<< 8) ||| (nr <<< 0) ||| (size <<< 16)) % 2 ^ 64

/-- Modelled from the spec: `_IOR(t, nr, size)`, a request that reads from the
driver; declared in a file of the package other than `fb_h.go`. -/
def _IOR (t nr size : Nat) : Nat := _IOC _IOC_READ t nr size

/-- Modelled from the spec: `_IOW(t, nr, size)`, a request that writes to the
driver; declared in a file of the package other than `fb_h.go`. -/
def _IOW (t nr size : Nat) : Nat := _IOC _IOC_WRITE t nr size

/-- Modelled from the spec: `_IOWR(t, nr, size)`, a request that both reads
and writes; declared in a file of the package other than `fb_h.go`. -/
def _IOWR (t nr size : Nat) : Nat := _IOC (_IOC_READ ||| _IOC_WRITE) t nr size

/-- The package-level variables assigned by `init`. -/
structure Globals where
  _IO_CURSOR : Nat
  _IOGET_VBLANK : Nat
  _IO_WAITFORVSYNC : Nat
  deriving DecidableEq

/-- The package-level variables before `init` runs: Go zero values. -/
def Globals.zero : Globals := ⟨0, 0, 0⟩

/-- The three encoding helpers `init` calls, each taking the type, the command
number and the argument size. They are parameters of `init` because their
declarations are not in `fb_h.go`. -/
structure Helpers where
  _IOWR : Nat → Nat → Nat → Nat
  _IOR : Nat → Nat → Nat → Nat
  _IOW : Nat → Nat → Nat → Nat

/-- The helpers of the standard encoding. -/
def stdHelpers : Helpers := ⟨_IOWR, _IOR, _IOW⟩

/-- The package initialiser `func init()`: three assignments to package-level
variables. `unsafe.Sizeof(c)` and `unsafe.Sizeof(v)` are the sizes of
`fb_cursor` and `fb_vblank`; the rune `'F'` converts to its code point. -/
def init (H : Helpers) (g : Globals) : Globals :=
  let g := { g with _IO_CURSOR := H._IOWR 'F'.toNat 0x08 (sizeof Decl.fb_cursor) }
  let g := { g with _IOGET_VBLANK := H._IOR 'F'.toNat 0x12 (sizeof Decl.fb_vblank) }
  let g := { g with _IO_WAITFORVSYNC := H._IOW 'F'.toNat 0x20 4 }
  g

/-- Helpers that return the type argument they are called with. -/
def typeArg : Helpers := ⟨fun t _ _ => t, fun t _ _ => t, fun t _ _ => t⟩

/-- Helpers that return the command number they are called with. -/
def nrArg : Helpers := ⟨fun _ nr _ => nr, fun _ nr _ => nr, fun _ nr _ => nr⟩

/-- Helpers that return the size argument they are called with. -/
def sizeArg : Helpers := ⟨fun _ _ size => size, fun _ _ size => size, fun _ _ size => size⟩

/-- The command numbers of the package: bits 0-7 of each fixed code, then the
command numbers `init` passes to `_IOWR`, `_IOR` and `_IOW`. -/
def commandNumbers : List Nat :=
  fixedCodes.map (fun c => c &&& 0xFF) ++
    [(init nrArg Globals.zero)._IO_CURSOR, (init nrArg Globals.zero)._IOGET_VBLANK,
     (init nrArg Globals.zero)._IO_WAITFORVSYNC]

/-! ## `fb_var_screeninfo` values and `Copy` -/

/-- A Go `uint32` value. -/
abbrev Word32 : Type := Fin 4294967296

/-- A value of the record type `fb_bitfield`. -/
structure fb_bitfield where
  offset : Word32
  length : Word32
  msb_right : Word32
  deriving DecidableEq

/-- A value of the record type `fb_var_screeninfo`, one component per slot of
the record. The two blank (`_`) fields of the declaration cannot be named by
Go code but are part of the record's memory: `blank_AccelFlags` is the
`uint32` declared after `width`, `blank_Reserved` the `[4]uint32` that ends
the record. -/
structure fb_var_screeninfo where
  xres : Word32
  yres : Word32
  xres_virtual : Word32
  yres_virtual : Word32
  xoffset : Word32
  yoffset : Word32
  bits_per_pixel : Word32
  grayscale : Word32
  red : fb_bitfield
  green : fb_bitfield
  blue : fb_bitfield
  transparent : fb_bitfield
  nonstd : Word32
  activate : Word32
  height : Word32
  width : Word32
  blank_AccelFlags : Word32
  pixclock : Word32
  left_margin : Word32
  right_margin : Word32
  upper_margin : Word32
  lower_margin : Word32
  hsync_len : Word32
  vsync_len : Word32
  sync : Word32
  vmode : Word32
  rotate : Word32
  colorspace : Word32
  blank_Reserved : Word32 × Word32 × Word32 × Word32
  deriving DecidableEq

/-- The zero value of `fb_bitfield`. -/
def fb_bitfield.zero : fb_bitfield := ⟨0, 0, 0⟩

/-- The zero value of `fb_var_screeninfo`, as allocated by `new`. -/
def fb_var_screeninfo.zero : fb_var_screeninfo :=
  { xres := 0, yres := 0, xres_virtual := 0, yres_virtual := 0, xoffset := 0, yoffset := 0,
    bits_per_pixel := 0, grayscale := 0, red := fb_bitfield.zero, green := fb_bitfield.zero,
    blue := fb_bitfield.zero, transparent := fb_bitfield.zero, nonstd := 0, activate := 0,
    height := 0, width := 0, blank_AccelFlags := 0, pixclock := 0, left_margin := 0,
    right_margin := 0, upper_margin := 0, lower_margin := 0, hsync_len := 0, vsync_len := 0,
    sync := 0, vmode := 0, rotate := 0, colorspace := 0, blank_Reserved := (0, 0, 0, 0) }

/-- The `fb_var_screeninfo` records that exist in memory; a record's address
is its position. -/
abbrev Heap : Type := List fb_var_screeninfo

/-- A `*fb_var_screeninfo`. A pointer at which the heap holds no record
(`nil` among them) cannot be dereferenced. -/
abbrev Ptr : Type := Nat

/-- The statement `n := new(fb_var_screeninfo)`: allocate a zeroed record at a
fresh address. -/
def new (h : Heap) : Heap × Ptr := (h ++ [fb_var_screeninfo.zero], h.length)

/-- One assignment `n.f = v.f`: read the record at `v`, write the updated
record at `n`. Dereferencing an invalid pointer panics (`none`). -/
def assign (h : Heap) (n v : Ptr)
    (put : fb_var_screeninfo → fb_var_screeninfo → fb_var_screeninfo) : Option Heap :=
  match h[v]?, h[n]? with
  | some src, some dst => some (h.set n (put dst src))
  | _, _ => none

/-- The assignments `n.f = v.f` that make up the body of `Copy`, in source
order; each is given by the record update it performs on the destination
`dst` from the source `src`. -/
def copyAssignments : List (fb_var_screeninfo → fb_var_screeninfo → fb_var_screeninfo) :=
  [fun dst src => { dst with xres := src.xres },
   fun dst src => { dst with yres := src.yres },
   fun dst src => { dst with xres_virtual := src.xres_virtual },
   fun dst src => { dst with yres_virtual := src.yres_virtual },
   fun dst src => { dst with xoffset := src.xoffset },
   fun dst src => { dst with yoffset := src.yoffset },
   fun dst src => { dst with bits_per_pixel := src.bits_per_pixel },
   fun dst src => { dst with grayscale := src.grayscale },
   fun dst src => { dst with red := src.red },
   fun dst src => { dst with green := src.green },
   fun dst src => { dst with blue := src.blue },
   fun dst src => { dst with transparent := src.transparent },
   fun dst src => { dst with nonstd := src.nonstd },
   fun dst src => { dst with activate := src.activate },
   fun dst src => { dst with height := src.height },
   fun dst src => { dst with width := src.width },
   fun dst src => { dst with pixclock := src.pixclock },
   fun dst src => { dst with left_margin := src.left_margin },
   fun dst src => { dst with right_margin := src.right_margin },
   fun dst src => { dst with upper_margin := src.upper_margin },
   fun dst src => { dst with lower_margin := src.lower_margin },
   fun dst src => { dst with hsync_len := src.hsync_len },
   fun dst src => { dst with vsync_len := src.vsync_len },
   fun dst src => { dst with sync := src.sync },
   fun dst src => { dst with vmode := src.vmode },
   fun dst src => { dst with rotate := src.rotate },
   fun dst src => { dst with colorspace := src.colorspace }]

/-- Run assignments `n.f = v.f` one after the other. -/
def runAssignments (n v : Ptr) :
    List (fb_var_screeninfo → fb_var_screeninfo → fb_var_screeninfo) → Heap → Option Heap
  | [], h => some h
  | put :: rest, h =>
    match assign h n v put with
    | some h1 => runAssignments n v rest h1
    | none => none

/-- The method `func (v *fb_var_screeninfo) Copy() *fb_var_screeninfo`, run on
heap `h`: allocate `n`, perform the assignments, return `n`. The result is
the heap after the call and the returned pointer. -/
def fb_var_screeninfo.Copy (h : Heap) (v : Ptr) : Option (Heap × Ptr) :=
  let (h0, n) := new h
  match runAssignments n v copyAssignments h0 with
  | some h1 => some (h1, n)
  | none => none

/-- The record `Copy` leaves at the returned address when the receiver
holds `r` (see `Copy_eq`). -/
def copyOf (r : fb_var_screeninfo) : fb_var_screeninfo :=
  { fb_var_screeninfo.zero with
    xres := r.xres,
    yres := r.yres,
    xres_virtual := r.xres_virtual,
    yres_virtual := r.yres_virtual,
    xoffset := r.xoffset,
    yoffset := r.yoffset,
    bits_per_pixel := r.bits_per_pixel,
    grayscale := r.grayscale,
    red := r.red,
    green := r.green,
    blue := r.blue,
    transparent := r.transparent,
    nonstd := r.nonstd,
    activate := r.activate,
    height := r.height,
    width := r.width,
    pixclock := r.pixclock,
    left_margin := r.left_margin,
    right_margin := r.right_margin,
    upper_margin := r.upper_margin,
    lower_margin := r.lower_margin,
    hsync_len := r.hsync_len,
    vsync_len := r.vsync_len,
    sync := r.sync,
    vmode := r.vmode,
    rotate := r.rotate,
    colorspace := r.colorspace }

/-- Agreement of `c` with `r` on each of the 27 named fields of
`fb_var_screeninfo`, the three components of every `fb_bitfield` spelled
out. -/
def agreeOnNamed (c r : fb_var_screeninfo) : Prop :=
  c.xres = r.xres ∧ c.yres = r.yres ∧ c.xres_virtual = r.xres_virtual ∧
  c.yres_virtual = r.yres_virtual ∧ c.xoffset = r.xoffset ∧ c.yoffset = r.yoffset ∧
  c.bits_per_pixel = r.bits_per_pixel ∧ c.grayscale = r.grayscale ∧ c.red.offset = r.red.offset ∧
  c.red.length = r.red.length ∧ c.red.msb_right = r.red.msb_right ∧
  c.green.offset = r.green.offset ∧ c.green.length = r.green.length ∧
  c.green.msb_right = r.green.msb_right ∧ c.blue.offset = r.blue.offset ∧
  c.blue.length = r.blue.length ∧ c.blue.msb_right = r.blue.msb_right ∧
  c.transparent.offset = r.transparent.offset ∧ c.transparent.length = r.transparent.length ∧
  c.transparent.msb_right = r.transparent.msb_right ∧ c.nonstd = r.nonstd ∧
  c.activate = r.activate ∧ c.height = r.height ∧ c.width = r.width ∧ c.pixclock = r.pixclock ∧
  c.left_margin = r.left_margin ∧ c.right_margin = r.right_margin ∧
  c.upper_margin = r.upper_margin ∧ c.lower_margin = r.lower_margin ∧ c.hsync_len = r.hsync_len ∧
  c.vsync_len = r.vsync_len ∧ c.sync = r.sync ∧ c.vmode = r.vmode ∧ c.rotate = r.rotate ∧
  c.colorspace = r.colorspace

instance (c r : fb_var_screeninfo) : Decidable (agreeOnNamed c r) := by
  unfold agreeOnNamed
  infer_instance

/-- A 1024x768 mode at 32 bits per pixel with every named field set and the
blank slots zero. -/
def sampleInfo : fb_var_screeninfo :=
  { xres := 1024, yres := 768, xres_virtual := 1024, yres_virtual := 1536, xoffset := 3,
    yoffset := 768, bits_per_pixel := 32, grayscale := 1, red := ⟨16, 8, 1⟩, green := ⟨8, 8, 2⟩,
    blue := ⟨0, 8, 3⟩, transparent := ⟨24, 8, 4⟩, nonstd := 5, activate := 128, height := 270,
    width := 360, blank_AccelFlags := 0, pixclock := 15384, left_margin := 160,
    right_margin := 24, upper_margin := 29, lower_margin := 6, hsync_len := 136, vsync_len := 9,
    sync := 12, vmode := 256, rotate := 90, colorspace := 7, blank_Reserved := (0, 0, 0, 0) }

/-- The same mode as the kernel may hand it back: the accel-flags word set to
`1` and the reserved words non-zero. -/
def kernelFilled : fb_var_screeninfo :=
  { sampleInfo with blank_AccelFlags := 1, blank_Reserved := (0, 0, 0, 9) }

/-! ## Lemmas on the heap operations -/

theorem getElem?_some_lt (h : Heap) (v : Ptr) (r : fb_var_screeninfo) (hv : h[v]? = some r) :
    v < h.length := by
  by_contra hlt
  rw [List.getElem?_eq_none (Nat.le_of_not_lt hlt)] at hv
  cases hv

theorem assign_fresh (h : Heap) (v : Ptr) (r d : fb_var_screeninfo)
    (put : fb_var_screeninfo → fb_var_screeninfo → fb_var_screeninfo) (hv : h[v]? = some r) :
    assign (h ++ [d]) h.length v put = some (h ++ [put d r]) := by
  have hlt : v < h.length := getElem?_some_lt h v r hv
  have h1 : (h ++ [d])[v]? = some r := by rw [List.getElem?_append_left hlt]; exact hv
  have h2 : (h ++ [d])[h.length]? = some d := by simp
  simp [assign, h1, h2]

theorem Copy_eq (h : Heap) (v : Ptr) (r : fb_var_screeninfo) (hv : h[v]? = some r) :
    fb_var_screeninfo.Copy h v = some (h ++ [copyOf r], h.length) := by
  simp [fb_var_screeninfo.Copy, new, copyAssignments, runAssignments, assign_fresh h v r _ _ hv,
    copyOf]

/-! ## `Copy` -/

/-- Claim C1: for every record `r` held at the receiver `v`, `v.Copy()` returns
a pointer to a record that agrees with `r` on each of the 27 named fields
(each `fb_bitfield` with its offset, length and msb_right). -/
theorem Copy_agrees_on_named_fields (h : Heap) (v : Ptr) (r : fb_var_screeninfo)
    (hv : h[v]? = some r) :
    ∃ h1 n c, fb_var_screeninfo.Copy h v = some (h1, n) ∧ h1[n]? = some c ∧
      agreeOnNamed c r := by
  refine ⟨h ++ [copyOf r], h.length, copyOf r, Copy_eq h v r hv, by simp, ?_⟩
  simp [agreeOnNamed, copyOf]

/-- The named-field agreement at a heap holding one fully populated mode. -/
theorem Copy_agrees_on_named_fields_witness :
    ([sampleInfo] : Heap)[0]? = some sampleInfo ∧
    ∃ h1 n c, fb_var_screeninfo.Copy [sampleInfo] 0 = some (h1, n) ∧ h1[n]? = some c ∧
      agreeOnNamed c sampleInfo :=
  ⟨rfl, Copy_agrees_on_named_fields [sampleInfo] 0 sampleInfo rfl⟩

/-- Claim C2, evaluated at a record whose blank slots are not zero: the record
`Copy` returns agrees with the receiver on the named fields, but its
accel-flags word and reserved words are zero, so it differs from the
receiver as a whole record. -/
theorem Copy_zeroes_blank_slots_of_kernelFilled :
    ∃ h1 n c, fb_var_screeninfo.Copy [kernelFilled] 0 = some (h1, n) ∧ h1[n]? = some c ∧
      agreeOnNamed c kernelFilled ∧
      kernelFilled.blank_AccelFlags = 1 ∧ c.blank_AccelFlags = 0 ∧
      kernelFilled.blank_Reserved = (0, 0, 0, 9) ∧ c.blank_Reserved = (0, 0, 0, 0) ∧
      c ≠ kernelFilled :=
  ⟨[kernelFilled, copyOf kernelFilled], 1, copyOf kernelFilled, by decide, rfl, by decide,
    rfl, rfl, rfl, rfl, by decide⟩

/-- Claim C10: `Copy` is read-only on its receiver. After `v.Copy()` returns,
the record at `v` is the record `r` it was before, every record that existed
before the call is unchanged, and the only address written is the returned
one, which held no record before the call. -/
theorem Copy_receiver_unchanged (h : Heap) (v : Ptr) (r : fb_var_screeninfo)
    (hv : h[v]? = some r) :
    ∃ h1 n, fb_var_screeninfo.Copy h v = some (h1, n) ∧
      h1[v]? = some r ∧
      (∀ (p : Ptr) (q : fb_var_screeninfo), h[p]? = some q → h1[p]? = some q) ∧
      h[n]? = none ∧ n ≠ v ∧ h1.length = h.length + 1 := by
  have frame : ∀ (p : Ptr) (q : fb_var_screeninfo),
      h[p]? = some q → (h ++ [copyOf r])[p]? = some q := by
    intro p q hp
    rw [List.getElem?_append_left (getElem?_some_lt h p q hp)]
    exact hp
  refine ⟨h ++ [copyOf r], h.length, Copy_eq h v r hv, frame v r hv, frame, by simp, ?_, by simp⟩
  exact Nat.ne_of_gt (getElem?_some_lt h v r hv)

/-- The frame property at a heap of two records, copying the second. -/
theorem Copy_receiver_unchanged_witness :
    ([sampleInfo, kernelFilled] : Heap)[1]? = some kernelFilled ∧
    ∃ h1 n, fb_var_screeninfo.Copy [sampleInfo, kernelFilled] 1 = some (h1, n) ∧
      h1[1]? = some kernelFilled ∧
      (∀ (p : Ptr) (q : fb_var_screeninfo),
        ([sampleInfo, kernelFilled] : Heap)[p]? = some q → h1[p]? = some q) ∧
      ([sampleInfo, kernelFilled] : Heap)[n]? = none ∧ n ≠ 1 ∧
      h1.length = ([sampleInfo, kernelFilled] : Heap).length + 1 :=
  ⟨rfl, Copy_receiver_unchanged [sampleInfo, kernelFilled] 1 kernelFilled rfl⟩

/-! ## Record layouts -/

/-- Claim C6: `fb_bitfield` is 12 bytes and `fb_var_screeninfo`, laid out in
declaration order with natural alignment, has no padding, is 160 bytes long
and has its fields at the kernel's offsets (each entry is name, offset,
size). -/
theorem fb_var_screeninfo_layout :
    sizeof Decl.fb_bitfield = 12 ∧
    layout Decl.fb_bitfield = [("offset", 0, 4), ("length", 4, 4), ("msb_right", 8, 4)] ∧
    sizeof Decl.fb_var_screeninfo = 160 ∧
    padding Decl.fb_var_screeninfo = 0 ∧ gaps Decl.fb_var_screeninfo = [] ∧
    tailPadding Decl.fb_var_screeninfo = 0 ∧ padding Decl.fb_bitfield = 0 ∧
    layout Decl.fb_var_screeninfo =
      [("xres", 0, 4), ("yres", 4, 4), ("xres_virtual", 8, 4), ("yres_virtual", 12, 4),
       ("xoffset", 16, 4), ("yoffset", 20, 4), ("bits_per_pixel", 24, 4), ("grayscale", 28, 4),
       ("red", 32, 12), ("green", 44, 12), ("blue", 56, 12), ("transparent", 68, 12),
       ("nonstd", 80, 4), ("activate", 84, 4), ("height", 88, 4), ("width", 92, 4),
       ("_", 96, 4), ("pixclock", 100, 4), ("left_margin", 104, 4), ("right_margin", 108, 4),
       ("upper_margin", 112, 4), ("lower_margin", 116, 4), ("hsync_len", 120, 4),
       ("vsync_len", 124, 4), ("sync", 128, 4), ("vmode", 132, 4), ("rotate", 136, 4),
       ("colorspace", 140, 4), ("_", 144, 16)] := by
  refine ⟨by decide, by decide, by decide, by decide, by decide, by decide, by decide,
    by decide⟩

/-- Claim C7: `fb_fix_screeninfo`, laid out in declaration order with natural
alignment for 64-bit Linux, is 80 bytes long with its fields at the offsets of
the 64-bit kernel's record (each entry is name, offset, size): 2 bytes of
padding before `line_length`, 4 before `mmio_start`, 2 at the tail. -/
theorem fb_fix_screeninfo_layout :
    sizeof Decl.fb_fix_screeninfo = 80 ∧
    alignof Decl.fb_fix_screeninfo = 8 ∧
    layout Decl.fb_fix_screeninfo =
      [("id", 0, 16), ("smemstart", 16, 8), ("smemlen", 24, 4), ("typ", 28, 4),
       ("type_aux", 32, 4), ("visual", 36, 4), ("xpanstep", 40, 2), ("ypanstep", 42, 2),
       ("ywrapstep", 44, 2), ("line_length", 48, 4), ("mmio_start", 56, 8),
       ("mmio_len", 64, 4), ("accel", 68, 4), ("capabilities", 72, 2), ("_", 74, 4)] ∧
    gaps Decl.fb_fix_screeninfo = [("line_length", 2), ("mmio_start", 4)] ∧
    tailPadding Decl.fb_fix_screeninfo = 2 ∧
    padding Decl.fb_fix_screeninfo = 2 + 4 + 2 := by
  refine ⟨by decide, by decide, by decide, by decide, by decide, by decide⟩

/-! ## The request codes computed by `init` -/

/-- Claim C3: after `init`, `_IO_CURSOR` is `0xC0684608`. The record
`fb_cursor` has set/enable/rop at 0/2/4, mask at 8, hot at 16 and image at 24,
with `fb_image` 80 bytes and `fb_cmap` 40 bytes, so its size is 104; `init`
passes `'F'`, `0x08` and that size to `_IOWR`; and the code has command number
8 in bits 0-7, type `'F'` in bits 8-15, size 104 in bits 16-29 and direction 3
in bits 30-31. -/
theorem init_IO_CURSOR (g : Globals) :
    (init stdHelpers g)._IO_CURSOR = 0xC0684608 ∧
    layout Decl.fb_cursor =
      [("set", 0, 2), ("enable", 2, 2), ("rop", 4, 2), ("mask", 8, 8), ("hot", 16, 4),
       ("image", 24, 80)] ∧
    sizeof Decl.fb_image = 80 ∧ sizeof Decl.fb_cmap = 40 ∧ sizeof Decl.fb_cursor = 104 ∧
    (init typeArg g)._IO_CURSOR = 0x46 ∧ (init nrArg g)._IO_CURSOR = 0x08 ∧
    (init sizeArg g)._IO_CURSOR = 104 ∧
    _IOWR 0x46 0x08 104 = 0xC0684608 ∧
    (init stdHelpers g)._IO_CURSOR &&& 0xFF = 0x08 ∧
    ((init stdHelpers g)._IO_CURSOR >>> 8) &&& 0xFF = 0x46 ∧
    ((init stdHelpers g)._IO_CURSOR >>> 16) &&& 0x3FFF = 104 ∧
    (init stdHelpers g)._IO_CURSOR >>> 30 = 3 ∧
    (init stdHelpers g)._IO_CURSOR < 2 ^ 63 := by
  refine ⟨rfl, by decide, by decide, by decide, by decide, rfl, rfl, rfl, by decide, ?_, ?_, ?_,
    ?_, ?_⟩ <;> (simp only [init]; decide)

/-- Claim C4: after `init`, `_IOGET_VBLANK` is `0x80204612`. The record
`fb_vblank` (four `uint32` fields and four reserved `uint32` words) is 32
bytes with no padding; `init` passes `'F'`, `0x12` and that size to `_IOR`;
and the code has command number `0x12` in bits 0-7, type `'F'` in bits 8-15,
size 32 in bits 16-29 and direction 2 in bits 30-31. -/
theorem init_IOGET_VBLANK (g : Globals) :
    (init stdHelpers g)._IOGET_VBLANK = 0x80204612 ∧
    layout Decl.fb_vblank =
      [("flags", 0, 4), ("count", 4, 4), ("vcount", 8, 4), ("hcount", 12, 4), ("_", 16, 16)] ∧
    sizeof Decl.fb_vblank = 32 ∧ padding Decl.fb_vblank = 0 ∧
    (init typeArg g)._IOGET_VBLANK = 0x46 ∧ (init nrArg g)._IOGET_VBLANK = 0x12 ∧
    (init sizeArg g)._IOGET_VBLANK = 32 ∧
    _IOR 0x46 0x12 32 = 0x80204612 ∧
    (init stdHelpers g)._IOGET_VBLANK &&& 0xFF = 0x12 ∧
    ((init stdHelpers g)._IOGET_VBLANK >>> 8) &&& 0xFF = 0x46 ∧
    ((init stdHelpers g)._IOGET_VBLANK >>> 16) &&& 0x3FFF = 32 ∧
    (init stdHelpers g)._IOGET_VBLANK >>> 30 = 2 ∧
    (init stdHelpers g)._IOGET_VBLANK < 2 ^ 63 := by
  refine ⟨rfl, by decide, by decide, by decide, rfl, rfl, rfl, by decide, ?_, ?_, ?_, ?_, ?_⟩ <;>
    (simp only [init]; decide)

/-- Claim C5: after `init`, `_IO_WAITFORVSYNC` is `0x40044620`. `init` passes
`'F'`, `0x20` and the size 4 (that of a `uint32`) to `_IOW`; and the code has
command number `0x20` in bits 0-7, type `'F'` in bits 8-15, size 4 in bits
16-29 and direction 1 in bits 30-31. -/
theorem init_IO_WAITFORVSYNC (g : Globals) :
    (init stdHelpers g)._IO_WAITFORVSYNC = 0x40044620 ∧
    (init typeArg g)._IO_WAITFORVSYNC = 0x46 ∧ (init nrArg g)._IO_WAITFORVSYNC = 0x20 ∧
    (init sizeArg g)._IO_WAITFORVSYNC = 4 ∧ sizeof GoType.uint32 = 4 ∧
    _IOW 0x46 0x20 4 = 0x40044620 ∧
    (init stdHelpers g)._IO_WAITFORVSYNC &&& 0xFF = 0x20 ∧
    ((init stdHelpers g)._IO_WAITFORVSYNC >>> 8) &&& 0xFF = 0x46 ∧
    ((init stdHelpers g)._IO_WAITFORVSYNC >>> 16) &&& 0x3FFF = 4 ∧
    (init stdHelpers g)._IO_WAITFORVSYNC >>> 30 = 1 ∧
    (init stdHelpers g)._IO_WAITFORVSYNC < 2 ^ 63 := by
  refine ⟨rfl, rfl, rfl, rfl, by decide, by decide, ?_, ?_, ?_, ?_, ?_⟩ <;>
    (simp only [init]; decide)

/-! ## Constants -/

/-- Claim C8: the video-mode constants have the kernel's `FB_VMODE_*` values;
each of the four scan-mode values is unchanged by masking with `VModeMask`;
each of `VModeYWrap`, `VModeSmoothXPan` and `VModeCanUpdate` has an empty
bitwise AND with `VModeMask`; and for every vmode word `w`, masking with
`VModeMask` keeps exactly the low eight bits (where the scan mode lives) and
leaves none of the three flags set. -/
theorem VModeMask_partition (w : Nat) :
    (VModeNonInterlaced = 0 ∧ VModeInterlaced = 1 ∧ VModeDouble = 2 ∧ VModeOddFieldFirst = 4 ∧
      VModeMask = 255 ∧ VModeYWrap = 256 ∧ VModeSmoothXPan = 512 ∧ VModeCanUpdate = 512) ∧
    (VModeNonInterlaced &&& VModeMask = VModeNonInterlaced ∧
      VModeInterlaced &&& VModeMask = VModeInterlaced ∧
      VModeDouble &&& VModeMask = VModeDouble ∧
      VModeOddFieldFirst &&& VModeMask = VModeOddFieldFirst) ∧
    (VModeYWrap &&& VModeMask = 0 ∧ VModeSmoothXPan &&& VModeMask = 0 ∧
      VModeCanUpdate &&& VModeMask = 0) ∧
    w &&& VModeMask = w % 256 ∧
    ((w &&& VModeMask) &&& VModeYWrap = 0 ∧ (w &&& VModeMask) &&& VModeSmoothXPan = 0 ∧
      (w &&& VModeMask) &&& VModeCanUpdate = 0) ∧
    (∀ m ∈ [VModeNonInterlaced, VModeInterlaced, VModeDouble, VModeOddFieldFirst],
      ∀ f ∈ [0, VModeYWrap, VModeSmoothXPan, VModeCanUpdate, VModeYWrap ||| VModeSmoothXPan],
        (m ||| f) &&& VModeMask = m) := by
  refine ⟨by decide, by decide, by decide, Nat.and_pow_two_sub_one_eq_mod w 8, ⟨?_, ?_, ?_⟩,
    by decide⟩
  · rw [Nat.land_assoc]
    show w &&& 0 = 0
    exact Nat.and_zero w
  · rw [Nat.land_assoc]
    show w &&& 0 = 0
    exact Nat.and_zero w
  · rw [Nat.land_assoc]
    show w &&& 0 = 0
    exact Nat.and_zero w

/-- Claim C9: each of the fifteen fixed request codes has bits 8-15 equal to
`'F'` (0x46) and all higher bits zero, `init` passes the type `'F'` to each
of `_IOWR`, `_IOR` and `_IOW`, and the eighteen command numbers (bits 0-7 of
the fixed codes, then 0x08, 0x12 and 0x20 passed by `init`) are pairwise
distinct. -/
theorem ioctl_codes_one_family_no_collision :
    fixedCodes.length = 15 ∧
    (∀ c ∈ fixedCodes, (c >>> 8) &&& 0xFF = 0x46 ∧ c >>> 16 = 0) ∧
    init typeArg Globals.zero = ⟨'F'.toNat, 'F'.toNat, 'F'.toNat⟩ ∧ 'F'.toNat = 0x46 ∧
    commandNumbers =
      [0x00, 0x01, 0x02, 0x04, 0x05, 0x06, 0x0F, 0x10, 0x11, 0x13, 0x14, 0x15, 0x16, 0x17,
       0x18, 0x08, 0x12, 0x20] ∧
    commandNumbers.length = 18 ∧
    commandNumbers.Nodup ∧
    fixedCodes.Nodup := by
  refine ⟨by decide, by decide, by decide, by decide, by decide, by decide, by decide, by decide⟩

end Framebuffer
